import Mathlib

/-!
Shallow embedding of the core-codecommit listener
(src/core_codecommit/listener.py) and proofs about it.

The Python module processes CodeCommit commit-notification events: it
extracts deployment details from each record, allocates a build number
through the SSM parameter store, and starts a CodeBuild project.

Python dictionaries are embedded as association lists over a JSON-like
value type; Python exceptions (KeyError, IndexError, TypeError,
ValueError, botocore ClientError) become an explicit error type carried
in Except; the two external services (SSM parameter store, CodeBuild)
are modelled as explicit state threaded through the functions together
with a call log, so that the absence or presence of an external call is
observable in the result.
-/

namespace CoreCodecommit

/-- Embedding of the Python exceptions the listener can raise.
KeyError, IndexError and TypeError arise while reading a record
(the malformed-record shape failures); ValueError is raised by the
handler for a payload without a Records key (the invalid-event
failure); ClientError stands for a failed AWS API call (the dispatch
or counter failures). -/
inductive PyError where
  | keyError (key : String)
  | indexError
  | typeError
  | valueError (msg : String)
  | clientError (msg : String)
deriving DecidableEq, Repr

/-- Classification of an error as a malformed-record failure: the shape
errors KeyError, IndexError, TypeError raised while reading the fields
of one record. This is the class the spec calls MalformedRecordError. -/
def PyError.isMalformedRecordError : PyError → Bool
  | .keyError _ => true
  | .indexError => true
  | .typeError => true
  | .valueError _ => false
  | .clientError _ => false

/-- JSON-like values, the embedding of the Python event payload. -/
inductive JVal where
  | str (s : String)
  | list (l : List JVal)
  | obj (fields : List (String × JVal))

/-- Embedding of a Python dict lookup record[k]: the first binding of
the key wins, a missing key raises KeyError. -/
def dictGet (d : List (String × JVal)) (k : String) : Except PyError JVal :=
  match d.find? (fun p => p.1 == k) with
  | some p => Except.ok p.2
  | none => Except.error (PyError.keyError k)

/-- Coercion of a JVal to a string, TypeError otherwise (embedding of
applying a str method to a non-string Python value). -/
def asStr : JVal → Except PyError String
  | JVal.str s => Except.ok s
  | _ => Except.error PyError.typeError

/-- Coercion of a JVal to an object, TypeError otherwise. -/
def asObj : JVal → Except PyError (List (String × JVal))
  | JVal.obj fields => Except.ok fields
  | _ => Except.error PyError.typeError

/-- Coercion of a JVal to a list, TypeError otherwise. -/
def asList : JVal → Except PyError (List JVal)
  | JVal.list l => Except.ok l
  | _ => Except.error PyError.typeError

/-- Embedding of the Python list indexing xs[0]: IndexError on an
empty list. -/
def pyFirst (l : List JVal) : Except PyError JVal :=
  match l with
  | [] => Except.error PyError.indexError
  | x :: _ => Except.ok x

/-- Splitting a list of characters at every occurrence of the
separator character, the embedding of the Python str.split method with
a one-character separator: the result is never empty, an empty input
yields one empty segment, and adjacent separators yield empty
segments. -/
def splitCharAux (c : Char) : List Char → List (List Char)
  | [] => [[]]
  | x :: xs =>
    match splitCharAux c xs with
    | [] => [[]]
    | y :: ys => if x = c then [] :: y :: ys else (x :: y) :: ys

/-- Embedding of the Python split method on strings, for the
one-character separators the listener uses. -/
def pySplit (c : Char) (s : String) : List String :=
  (splitCharAux c s.data).map String.mk

/-- Joining character lists with a separator character, the embedding
of the Python str.join method with a one-character separator. -/
def joinCharAux (c : Char) : List (List Char) → List Char
  | [] => []
  | [x] => x
  | x :: y :: ys => x ++ c :: joinCharAux c (y :: ys)

/-- Embedding of the Python join method on strings. -/
def pyJoin (c : Char) (l : List String) : String :=
  String.mk (joinCharAux c (l.map String.data))

/-- Embedding of the Python indexing xs[-1] as used on the never-empty
results of split. -/
def pyLast (l : List String) : String := l.getLastD ""

/-- Embedding of the Python indexing xs[0] as used on the never-empty
results of split. -/
def pyHead (l : List String) : String := l.headD ""

/-- Embedding of the Python slice s[:n] on strings. -/
def pyTake (n : Nat) (s : String) : String := String.mk (s.data.take n)

/-- Embedding of DeploymentDetails as constructed by the listener:
portfolio, app, branch and build from the record, and the client
identifier filled in by the core_framework model defaults. -/
structure DeploymentDetails where
  portfolio : String
  app : String
  branch : String
  build : String
  client : String
deriving DecidableEq, Repr

/-- Modelled from the spec: the branch_short_name attribute of
DeploymentDetails lives in core_framework.models, outside this
repository. The spec states the counter key as
/portfolio/app/branch/build_time, built from the branch unchanged, so
the model takes the short name to be the branch itself. -/
def DeploymentDetails.branch_short_name (dd : DeploymentDetails) : String :=
  dd.branch

/-- Embedding of the repository-name computation on line 58 of the
listener: the last colon-delimited segment of the eventSourceARN. -/
def repoNameOf (arn : String) : String := pyLast (pySplit ':' arn)

/-- Embedding of lines 58 to 60 of the listener: split the repository
name on dashes, the first token is the portfolio and the remaining
tokens rejoined with dashes are the app. -/
def portfolioAppOf (name : String) : String × String :=
  let parts := pySplit '-' name
  (pyHead parts, pyJoin '-' parts.tail)

/-- Embedding of the branch computation on line 63 of the listener:
the last slash-delimited segment of the ref. -/
def branchOf (ref : String) : String := pyLast (pySplit '/' ref)

/-- Embedding of the private function __get_deployment_details of the
listener. Reads eventSourceARN, then codecommit.references[0].ref and
codecommit.references[0].commit, in the order the Python evaluates
them, and builds the DeploymentDetails. The client argument stands for
the client identifier the core_framework model fills in. -/
def get_deployment_details (client : String) (record : List (String × JVal)) :
    Except PyError DeploymentDetails :=
  match dictGet record "eventSourceARN" with
  | Except.error e => Except.error e
  | Except.ok arnVal =>
    match asStr arnVal with
    | Except.error e => Except.error e
    | Except.ok arn =>
      let pa := portfolioAppOf (repoNameOf arn)
      match dictGet record "codecommit" with
      | Except.error e => Except.error e
      | Except.ok ccVal =>
        match asObj ccVal with
        | Except.error e => Except.error e
        | Except.ok cc =>
          match dictGet cc "references" with
          | Except.error e => Except.error e
          | Except.ok refsVal =>
            match asList refsVal with
            | Except.error e => Except.error e
            | Except.ok refs =>
              match pyFirst refs with
              | Except.error e => Except.error e
              | Except.ok ref0Val =>
                match asObj ref0Val with
                | Except.error e => Except.error e
                | Except.ok ref0 =>
                  match dictGet ref0 "ref" with
                  | Except.error e => Except.error e
                  | Except.ok refVal =>
                    match asStr refVal with
                    | Except.error e => Except.error e
                    | Except.ok refStr =>
                      match dictGet ref0 "commit" with
                      | Except.error e => Except.error e
                      | Except.ok commitVal =>
                        match asStr commitVal with
                        | Except.error e => Except.error e
                        | Except.ok commit =>
                          Except.ok
                            { portfolio := pa.1
                              app := pa.2
                              branch := branchOf refStr
                              build := pyTake 7 commit
                              client := client }

/-- Record in the shape the listener expects, with exactly the fields
it reads: eventSourceARN, and codecommit holding one reference with
ref and commit. -/
def mkRecord (arn refStr commit : String) : List (String × JVal) :=
  [("eventSourceARN", JVal.str arn),
   ("codecommit", JVal.obj
     [("references", JVal.list
       [JVal.obj [("ref", JVal.str refStr), ("commit", JVal.str commit)]])])]

/-- State of the SSM parameter store: bindings from parameter name to
stored value and version, newest binding first. -/
abbrev SSMStore := List (String × String × Nat)

/-- Lookup of the current value and version of a parameter. -/
def ssmLookup (ssm : SSMStore) (name : String) : Option (String × Nat) :=
  (ssm.find? (fun p => p.1 == name)).map (fun p => p.2)

/-- Version currently stored at a parameter name, zero when absent. -/
def versionAt (ssm : SSMStore) (name : String) : Nat :=
  match ssmLookup ssm name with
  | some p => p.2
  | none => 0

/-- Modelled from the spec: the SSM put_parameter operation is an AWS
service, not code of this repository. Per the spec, the store is
versioned, a fresh parameter receives version 1, each overwrite of the
same key increments its version by exactly one, and a put without
overwrite fails when the parameter already exists; the call returns
the version assigned to the write. -/
def ssmPut (ssm : SSMStore) (name value : String) (overwrite : Bool) :
    Except PyError (Nat × SSMStore) :=
  match ssmLookup ssm name with
  | some p =>
    if overwrite then
      Except.ok (p.2 + 1, (name, value, p.2 + 1) :: ssm)
    else
      Except.error (PyError.clientError "ParameterAlreadyExists")
  | none => Except.ok (1, (name, value, 1) :: ssm)

/-- Embedding of the parameter-name format string on lines 101 to 103
of the listener. -/
def param_name (dd : DeploymentDetails) : String :=
  "/" ++ dd.portfolio ++ "/" ++ dd.app ++ "/" ++ dd.branch_short_name
    ++ "/build_time"

/-- Embedding of the private function __get_new_build_number of the
listener: write the current wall-clock time in milliseconds, here the
parameter now, as a string to the parameter
/portfolio/app/branch/build_time with overwrite enabled, and return
the version of the write as a string. -/
def get_new_build_number (dd : DeploymentDetails) (now : Nat)
    (ssm : SSMStore) : Except PyError (String × SSMStore) :=
  let pn := param_name dd
  let current_time := toString now
  match ssmPut ssm pn current_time true with
  | Except.error e => Except.error e
  | Except.ok vs => Except.ok (toString vs.1, vs.2)

/-- Environment-variable override entry as passed to CodeBuild. -/
structure EnvVar where
  name : String
  value : String
  type : String
deriving DecidableEq, Repr

/-- Arguments of one CodeBuild start_build call. -/
structure BuildStartCall where
  projectName : String
  sourceVersion : String
  environmentVariablesOverride : List EnvVar
deriving DecidableEq, Repr

/-- Value of the first environment override with the given name. -/
def envValue (l : List EnvVar) (n : String) : Option String :=
  (l.find? (fun v => v.name == n)).map (fun v => v.value)

/-- Observable state of the external world: the SSM parameter store
and the log of start_build calls made, in order. -/
structure World where
  ssm : SSMStore
  builds : List BuildStartCall
deriving DecidableEq, Repr

/-- Outcome of the CodeBuild start_build service for a given call:
either a response, or a failure message standing for a botocore
ClientError, for example a missing project. The service itself is an
external collaborator, so it is a parameter of the embedding. -/
abbrev BuildService (α : Type) := BuildStartCall → Except String α

/-- Embedding of invoke_codebuild_project of the listener: derive the
project name portfolio-app, allocate a new build number through the
parameter store, build the ordered environment-override list, start
the build at the branch revision, and return its response unmodified.
The bucket and region arguments stand for util.get_bucket_name and
util.get_region; now stands for the current wall-clock time in
milliseconds. -/
def invoke_codebuild_project {α : Type} (svc : BuildService α)
    (bucket region : String) (now : Nat) (dd : DeploymentDetails)
    (w : World) : Except PyError α × World :=
  let project_name := dd.portfolio ++ "-" ++ dd.app
  match get_new_build_number dd now w.ssm with
  | Except.error e => (Except.error e, w)
  | Except.ok bs =>
    let build_number := bs.1
    let automation_bucket_name := bucket
    let _automation_region := region
    let env_vars : List EnvVar :=
      [{ name := "CLIENT", value := dd.client, type := "PLAINTEXT" },
       { name := "PORTFOLIO", value := dd.portfolio, type := "PLAINTEXT" },
       { name := "APP", value := dd.app, type := "PLAINTEXT" },
       { name := "BRANCH", value := dd.branch, type := "PLAINTEXT" },
       { name := "BUILD", value := dd.build, type := "PLAINTEXT" },
       { name := "BUILD_NUMBER", value := build_number, type := "PLAINTEXT" },
       { name := "BUCKET_NAME", value := automation_bucket_name,
         type := "PLAINTEXT" }]
    let call : BuildStartCall :=
      { projectName := project_name
        sourceVersion := dd.branch
        environmentVariablesOverride := env_vars }
    let w2 : World := { ssm := bs.2, builds := w.builds ++ [call] }
    match svc call with
    | Except.error msg => (Except.error (PyError.clientError msg), w2)
    | Except.ok resp => (Except.ok resp, w2)

/-- Successful handler result, the embedding of the dictionary with
the single key Responses the handler returns. -/
structure HandlerResult (α : Type) where
  Responses : List α
deriving DecidableEq, Repr

/-- Processing of the record list inside the handler loop: each record
in order runs extraction then dispatch, responses are collected in
order, and the first error aborts the loop and is propagated with no
partial list. -/
def runRecords {α : Type} (svc : BuildService α)
    (client bucket region : String) (now : Nat) :
    List JVal → World → Except PyError (List α) × World
  | [], w => (Except.ok [], w)
  | r :: rs, w =>
    match asObj r with
    | Except.error e => (Except.error e, w)
    | Except.ok robj =>
      match get_deployment_details client robj with
      | Except.error e => (Except.error e, w)
      | Except.ok dd =>
        match invoke_codebuild_project svc bucket region now dd w with
        | (Except.error e, w2) => (Except.error e, w2)
        | (Except.ok resp, w2) =>
          match runRecords svc client bucket region now rs w2 with
          | (Except.error e, w3) => (Except.error e, w3)
          | (Except.ok resps, w3) => (Except.ok (resp :: resps), w3)

/-- Embedding of the handler entry point: a payload without a Records
key raises ValueError before anything else happens, a Records value
that is not a list raises TypeError when iterated, and otherwise the
records are processed sequentially with the first error propagated. -/
def handler {α : Type} (svc : BuildService α)
    (client bucket region : String) (now : Nat)
    (event : List (String × JVal)) (w : World) :
    Except PyError (HandlerResult α) × World :=
  match dictGet event "Records" with
  | Except.error _ =>
    (Except.error (PyError.valueError "No Records key in event"), w)
  | Except.ok recordsVal =>
    match recordsVal with
    | JVal.list records =>
      match runRecords svc client bucket region now records w with
      | (Except.error e, w2) => (Except.error e, w2)
      | (Except.ok resps, w2) => (Except.ok { Responses := resps }, w2)
    | _ => (Except.error PyError.typeError, w)

/-- Definition following the words of the spec for the dispatcher
contract: the ordered override list CLIENT, PORTFOLIO, APP, BRANCH,
BUILD holding the short commit hash, BUILD_NUMBER holding the
allocated counter value, and BUCKET_NAME. Stated from the spec to be
compared against the list the code builds. -/
def specEnvOverrides (dd : DeploymentDetails) (buildNumber bucket : String) :
    List EnvVar :=
  [{ name := "CLIENT", value := dd.client, type := "PLAINTEXT" },
   { name := "PORTFOLIO", value := dd.portfolio, type := "PLAINTEXT" },
   { name := "APP", value := dd.app, type := "PLAINTEXT" },
   { name := "BRANCH", value := dd.branch, type := "PLAINTEXT" },
   { name := "BUILD", value := dd.build, type := "PLAINTEXT" },
   { name := "BUILD_NUMBER", value := buildNumber, type := "PLAINTEXT" },
   { name := "BUCKET_NAME", value := bucket, type := "PLAINTEXT" }]

/-- Definition following the words of the spec for the dispatcher
contract: the build-start call with project name portfolio-app, source
revision equal to the branch, and the spec override list. -/
def specBuildCall (dd : DeploymentDetails) (buildNumber bucket : String) :
    BuildStartCall :=
  { projectName := dd.portfolio ++ "-" ++ dd.app
    sourceVersion := dd.branch
    environmentVariablesOverride := specEnvOverrides dd buildNumber bucket }

/-- Record shaped exactly as claim C1 describes the inbound event:
fields sourceIdentifier and changeset, with the reference carrying ref
and revision. -/
def claimShapedRecord : List (String × JVal) :=
  [("sourceIdentifier",
    JVal.str "arn:aws:codecommit:us-east-1:123456789012:core-api"),
   ("changeset", JVal.obj
     [("references", JVal.list
       [JVal.obj [("ref", JVal.str "refs/heads/main"),
                  ("revision", JVal.str "abcdef1234567890")]])])]

/-- Well-formed record used in the concrete scenarios, matching the
repository test fixture. -/
def goodRecord : List (String × JVal) :=
  mkRecord "arn:aws:codecommit:us-west-2:123456789012:portfolio-my-repo"
    "refs/heads/main" "abcdef1234567890abcdef1234567890abcdef12"

/-- Details the listener extracts from goodRecord. -/
def goodDetails (client : String) : DeploymentDetails :=
  { portfolio := "portfolio", app := "my-repo", branch := "main",
    build := "abcdef1", client := client }

/-- Malformed record: the reference lacks the commit field, so reading
it raises KeyError. -/
def badRecord : List (String × JVal) :=
  [("eventSourceARN",
    JVal.str "arn:aws:codecommit:us-west-2:123456789012:portfolio-my-repo"),
   ("codecommit", JVal.obj
     [("references", JVal.list
       [JVal.obj [("ref", JVal.str "refs/heads/main")]])])]

/-- Event of two records whose second record is malformed. -/
def twoRecordEvent : List (String × JVal) :=
  [("Records", JVal.list [JVal.obj goodRecord, JVal.obj badRecord])]

theorem data_mk (l : List Char) : (String.mk l).data = l := rfl

theorem mk_data (s : String) : String.mk s.data = s := rfl

theorem data_append (s t : String) : (s ++ t).data = s.data ++ t.data := rfl

theorem map_data_map_mk (l : List (List Char)) :
    (l.map String.mk).map String.data = l := by
  induction l with
  | nil => rfl
  | cons x xs ih => simp [ih]

theorem splitCharAux_ne_nil (c : Char) (l : List Char) :
    splitCharAux c l ≠ [] := by
  cases l with
  | nil => simp [splitCharAux]
  | cons x xs =>
    simp only [splitCharAux]
    cases splitCharAux c xs with
    | nil => simp
    | cons y ys =>
      by_cases hx : x = c <;> simp [hx]

theorem splitCharAux_append (c : Char) (p a : List Char) (h : c ∉ p) :
    splitCharAux c (p ++ c :: a) = p :: splitCharAux c a := by
  induction p with
  | nil =>
    simp only [List.nil_append, splitCharAux]
    cases hs : splitCharAux c a with
    | nil => exact absurd hs (splitCharAux_ne_nil c a)
    | cons y ys => simp
  | cons d p ih =>
    have hd : d ≠ c := by
      intro hdc
      exact h (hdc ▸ List.mem_cons_self d p)
    have hp : c ∉ p := fun hm => h (List.mem_cons_of_mem d hm)
    simp only [List.cons_append, splitCharAux, List.append_eq]
    rw [ih hp]
    simp [hd]

theorem splitCharAux_of_not_mem (c : Char) (l : List Char) (h : c ∉ l) :
    splitCharAux c l = [l] := by
  induction l with
  | nil => rfl
  | cons x xs ih =>
    have hx : x ≠ c := by
      intro hxc
      exact h (hxc ▸ List.mem_cons_self x xs)
    have hxs : c ∉ xs := fun hm => h (List.mem_cons_of_mem x hm)
    simp only [splitCharAux, ih hxs]
    simp [hx]

theorem joinCharAux_cons_cons (c x : Char) (y : List Char)
    (ys : List (List Char)) :
    joinCharAux c ((x :: y) :: ys) = x :: joinCharAux c (y :: ys) := by
  cases ys <;> simp [joinCharAux]

theorem joinCharAux_splitCharAux (c : Char) (l : List Char) :
    joinCharAux c (splitCharAux c l) = l := by
  induction l with
  | nil => rfl
  | cons x xs ih =>
    simp only [splitCharAux]
    cases hs : splitCharAux c xs with
    | nil => exact absurd hs (splitCharAux_ne_nil c xs)
    | cons y ys =>
      rw [hs] at ih
      by_cases hx : x = c
      · subst hx
        simp [joinCharAux, ih]
      · simp only [if_neg hx]
        rw [joinCharAux_cons_cons, ih]

theorem pySplit_append_sep (c : Char) (p a : String) (h : c ∉ p.data) :
    pySplit c (p ++ String.mk [c] ++ a) = p :: pySplit c a := by
  unfold pySplit
  have hd : (p ++ String.mk [c] ++ a).data = p.data ++ c :: a.data := by
    simp [data_append, data_mk]
  rw [hd, splitCharAux_append c p.data a.data h]
  simp [mk_data]

theorem pyJoin_pySplit (c : Char) (a : String) :
    pyJoin c (pySplit c a) = a := by
  unfold pyJoin pySplit
  rw [map_data_map_mk, joinCharAux_splitCharAux, mk_data]

theorem pySplit_of_not_mem (c : Char) (s : String) (h : c ∉ s.data) :
    pySplit c s = [s] := by
  unfold pySplit
  rw [splitCharAux_of_not_mem c s.data h]
  simp [mk_data]

theorem portfolioAppOf_split (p a : String) (h : '-' ∉ p.data) :
    portfolioAppOf (p ++ "-" ++ a) = (p, a) := by
  unfold portfolioAppOf
  rw [show ("-" : String) = String.mk ['-'] from rfl,
    pySplit_append_sep '-' p a h]
  simp [pyHead, pyJoin_pySplit]

theorem portfolioAppOf_no_dash (name : String) (h : '-' ∉ name.data) :
    portfolioAppOf name = (name, "") := by
  unfold portfolioAppOf
  rw [pySplit_of_not_mem '-' name h]
  simp [pyHead, pyJoin, joinCharAux]

theorem branchOf_heads (x : String) (h : '/' ∉ x.data) :
    branchOf ("refs/heads/" ++ x) = x := by
  unfold branchOf
  rw [show ("refs/heads/" ++ x : String) =
      "refs" ++ String.mk ['/'] ++ ("heads" ++ String.mk ['/'] ++ x) from rfl]
  rw [pySplit_append_sep '/' "refs" _ (by decide)]
  rw [pySplit_append_sep '/' "heads" _ (by decide)]
  rw [pySplit_of_not_mem '/' x h]
  simp [pyLast]

theorem gdd_mkRecord (cl arn r c : String) :
    get_deployment_details cl (mkRecord arn r c) =
    Except.ok
      { portfolio := (portfolioAppOf (repoNameOf arn)).1
        app := (portfolioAppOf (repoNameOf arn)).2
        branch := branchOf r
        build := pyTake 7 c
        client := cl } := rfl

/-- C1: the extractor does not read the fields sourceIdentifier,
changeset and revision the claim names. On a record carrying exactly
those fields it raises KeyError for eventSourceARN, so no
DeploymentDetails is produced. -/
theorem c1_claim_fields_counterexample :
    get_deployment_details "test" claimShapedRecord =
    Except.error (PyError.keyError "eventSourceARN") := rfl

/-- C1 amended: the extractor reads the record fields eventSourceARN
and codecommit, whose reference carries ref and commit; given a record
containing exactly those fields, extraction produces the
DeploymentDetails, and the result depends on no other field names:
two records agreeing on eventSourceARN and codecommit extract
identically. -/
theorem c1_extractor_fields :
    (∀ cl arn r c, get_deployment_details cl (mkRecord arn r c) =
      Except.ok
        { portfolio := (portfolioAppOf (repoNameOf arn)).1
          app := (portfolioAppOf (repoNameOf arn)).2
          branch := branchOf r
          build := pyTake 7 c
          client := cl })
    ∧ (∀ cl r1 r2,
        dictGet r1 "eventSourceARN" = dictGet r2 "eventSourceARN" →
        dictGet r1 "codecommit" = dictGet r2 "codecommit" →
        get_deployment_details cl r1 = get_deployment_details cl r2) := by
  constructor
  · intro cl arn r c
    exact gdd_mkRecord cl arn r c
  · intro cl r1 r2 h1 h2
    unfold get_deployment_details
    rw [h1, h2]

/-- Witness for C1: extraction succeeds on a record with exactly the
fields the code reads, and adding an unrelated field changes
nothing. -/
theorem c1_extractor_fields_witness :
    get_deployment_details "test"
      (mkRecord "arn:aws:codecommit:us-east-1:123456789012:core-api"
        "refs/heads/master" "abcdef1234567890") =
    Except.ok
      { portfolio := "core", app := "api", branch := "master",
        build := "abcdef1", client := "test" } ∧
    get_deployment_details "test"
      (mkRecord "arn:aws:codecommit:us-east-1:123456789012:core-api"
        "refs/heads/master" "abcdef1234567890") =
    get_deployment_details "test"
      (("eventId", JVal.str "12345") ::
        mkRecord "arn:aws:codecommit:us-east-1:123456789012:core-api"
          "refs/heads/master" "abcdef1234567890") := by
  constructor
  · rw [c1_extractor_fields.1 "test"
      "arn:aws:codecommit:us-east-1:123456789012:core-api"
      "refs/heads/master" "abcdef1234567890"]
    rfl
  · exact c1_extractor_fields.2 "test" _ _ rfl rfl

/-- C2: for every repository name of the form portfolio-app, with the
app part free to contain further dashes, the extractor recovers the
portfolio as the text before the first dash and the app as the
remainder with its dashes intact; and the full extractor computes its
portfolio and app exactly this way from the last colon segment of the
eventSourceARN. -/
theorem c2_portfolio_app_split :
    (∀ p a : String, '-' ∉ p.data →
      portfolioAppOf (p ++ "-" ++ a) = (p, a))
    ∧ (∀ cl arn r c dd,
        get_deployment_details cl (mkRecord arn r c) = Except.ok dd →
        (dd.portfolio, dd.app) = portfolioAppOf (repoNameOf arn)) := by
  constructor
  · exact portfolioAppOf_split
  · intro cl arn r c dd h
    rw [gdd_mkRecord] at h
    simp only [Except.ok.injEq] at h
    rw [← h]

/-- Witness for C2 at the example of the spec: core-api-gateway splits
into portfolio core and app api-gateway. -/
theorem c2_portfolio_app_split_witness :
    portfolioAppOf ("core" ++ "-" ++ "api-gateway") =
    ("core", "api-gateway") :=
  c2_portfolio_app_split.1 "core" "api-gateway" (by decide)

/-- C4: the claim fails on the code. For the ref
refs/heads/feature/login, whose branch name carries a further slash,
the code keeps only the last slash segment login, not the whole
prefix-stripped name feature/login. -/
theorem c4_slash_branch_counterexample :
    branchOf "refs/heads/feature/login" = "login" ∧
    ("login" == "feature/login") = false := by
  constructor <;> rfl

/-- C4 amended: for every ref of the form refs/heads/X where X
contains no further slash, the extracted branch equals X; in general
the code takes the last slash-delimited segment of the ref, so a
branch name with further slashes loses everything before its last
slash. -/
theorem c4_branch_of_heads_ref :
    ∀ x : String, '/' ∉ x.data → branchOf ("refs/heads/" ++ x) = x :=
  branchOf_heads

/-- Witness for C4 at the ref refs/heads/main. -/
theorem c4_branch_of_heads_ref_witness :
    branchOf ("refs/heads/" ++ "main") = "main" :=
  c4_branch_of_heads_ref "main" (by decide)

/-- C9: a repository name without a dash does not make extraction
fail: the portfolio is the whole name and the app is empty, both for
the name-splitting step and for the full extractor on a well-shaped
record. -/
theorem c9_dashless_repo_name :
    (∀ name : String, '-' ∉ name.data → portfolioAppOf name = (name, ""))
    ∧ (∀ cl arn r c, '-' ∉ (repoNameOf arn).data →
        get_deployment_details cl (mkRecord arn r c) =
        Except.ok
          { portfolio := repoNameOf arn, app := "", branch := branchOf r,
            build := pyTake 7 c, client := cl }) := by
  constructor
  · exact portfolioAppOf_no_dash
  · intro cl arn r c h
    rw [gdd_mkRecord, portfolioAppOf_no_dash _ h]

/-- Witness for C9 on a repository name with no dash. -/
theorem c9_dashless_repo_name_witness :
    get_deployment_details "test"
      (mkRecord "arn:aws:codecommit:us-east-1:123456789012:standalone"
        "refs/heads/main" "abcdef1234567890") =
    Except.ok
      { portfolio := "standalone", app := "", branch := "main",
        build := "abcdef1", client := "test" } := by
  rw [c9_dashless_repo_name.2 "test"
    "arn:aws:codecommit:us-east-1:123456789012:standalone"
    "refs/heads/main" "abcdef1234567890" (by decide)]
  rfl

theorem ssmPut_overwrite (s : SSMStore) (n v : String) :
    ssmPut s n v true =
    Except.ok (versionAt s n + 1, (n, v, versionAt s n + 1) :: s) := by
  unfold ssmPut versionAt
  cases h : ssmLookup s n <;> simp [h]

theorem get_new_build_number_eq (dd : DeploymentDetails) (now : Nat)
    (s : SSMStore) :
    get_new_build_number dd now s =
    Except.ok (toString (versionAt s (param_name dd) + 1),
      (param_name dd, toString now, versionAt s (param_name dd) + 1) :: s) := by
  show (match ssmPut s (param_name dd) (toString now) true with
        | Except.error e => (Except.error e : Except PyError (String × SSMStore))
        | Except.ok vs => Except.ok (toString vs.1, vs.2)) = _
  rw [ssmPut_overwrite]

theorem versionAt_cons_self (s : SSMStore) (n v : String) (ver : Nat) :
    versionAt ((n, v, ver) :: s) n = ver := by
  simp [versionAt, ssmLookup, List.find?]

theorem versionAt_cons_ne (s : SSMStore) (n2 n v : String) (ver : Nat)
    (h : n2 ≠ n) :
    versionAt ((n2, v, ver) :: s) n = versionAt s n := by
  have hb : (n2 == n) = false := beq_eq_false_iff_ne.mpr h
  simp [versionAt, ssmLookup, List.find?, hb]

/-- C5: the allocator writes the wall-clock timestamp in milliseconds,
as a string, to the key /portfolio/app/branch/build_time with
overwrite enabled and returns the version the store assigned to the
write, as a string; two sequential allocations for the same key return
strictly increasing version numbers; and an allocation for a different
key leaves the result of an allocation for this key unchanged. -/
theorem c5_build_counter :
    (∀ (dd : DeploymentDetails) (now : Nat) (s : SSMStore),
      get_new_build_number dd now s =
      Except.ok (toString (versionAt s (param_name dd) + 1),
        (param_name dd, toString now,
          versionAt s (param_name dd) + 1) :: s))
    ∧ (∀ (dd : DeploymentDetails) (now1 now2 : Nat) (s : SSMStore)
        (b1 : String) (s1 : SSMStore) (b2 : String) (s2 : SSMStore),
        get_new_build_number dd now1 s = Except.ok (b1, s1) →
        get_new_build_number dd now2 s1 = Except.ok (b2, s2) →
        ∃ v1 v2 : Nat, b1 = toString v1 ∧ b2 = toString v2 ∧ v1 < v2)
    ∧ (∀ (dd dd2 : DeploymentDetails) (now now2 : Nat) (s : SSMStore)
        (b2 : String) (s2 : SSMStore),
        param_name dd2 ≠ param_name dd →
        get_new_build_number dd2 now2 s = Except.ok (b2, s2) →
        get_new_build_number dd now s2 =
        Except.ok (toString (versionAt s (param_name dd) + 1),
          (param_name dd, toString now,
            versionAt s (param_name dd) + 1) :: s2)) := by
  refine ⟨get_new_build_number_eq, ?_, ?_⟩
  · intro dd now1 now2 s b1 s1 b2 s2 h1 h2
    rw [get_new_build_number_eq] at h1 h2
    simp only [Except.ok.injEq, Prod.mk.injEq] at h1 h2
    obtain ⟨hb1, hs1⟩ := h1
    obtain ⟨hb2, _⟩ := h2
    refine ⟨versionAt s (param_name dd) + 1,
      versionAt s1 (param_name dd) + 1, hb1.symm, hb2.symm, ?_⟩
    rw [← hs1, versionAt_cons_self]
    omega
  · intro dd dd2 now now2 s b2 s2 hne h2
    rw [get_new_build_number_eq] at h2
    simp only [Except.ok.injEq, Prod.mk.injEq] at h2
    obtain ⟨-, hs2⟩ := h2
    rw [get_new_build_number_eq, ← hs2,
      versionAt_cons_ne _ _ _ _ _ hne]

/-- Witness for C5: on an empty store the first allocation returns
version 1, the second returns version 2, and 1 is less than 2. -/
theorem c5_build_counter_witness :
    ∃ v1 v2 : Nat, "1" = toString v1 ∧ "2" = toString v2 ∧ v1 < v2 :=
  c5_build_counter.2.1
    { portfolio := "core", app := "api", branch := "master",
      build := "abcdef1", client := "test" } 5 6 [] "1"
    [("/core/api/master/build_time", "5", 1)] "2"
    [("/core/api/master/build_time", "6", 2),
     ("/core/api/master/build_time", "5", 1)] rfl rfl

theorem invoke_eq (α : Type) (svc : BuildService α) (bucket region : String)
    (now : Nat) (dd : DeploymentDetails) (w : World) :
    invoke_codebuild_project svc bucket region now dd w =
    (match svc (specBuildCall dd
        (toString (versionAt w.ssm (param_name dd) + 1)) bucket) with
     | Except.error msg =>
       (Except.error (PyError.clientError msg),
        { ssm := (param_name dd, toString now,
            versionAt w.ssm (param_name dd) + 1) :: w.ssm
          builds := w.builds ++ [specBuildCall dd
            (toString (versionAt w.ssm (param_name dd) + 1)) bucket] })
     | Except.ok resp =>
       (Except.ok resp,
        { ssm := (param_name dd, toString now,
            versionAt w.ssm (param_name dd) + 1) :: w.ssm
          builds := w.builds ++ [specBuildCall dd
            (toString (versionAt w.ssm (param_name dd) + 1)) bucket] })) := by
  unfold invoke_codebuild_project
  rw [get_new_build_number_eq]
  rfl

/-- C3: the dispatcher starts the build with project name
portfolio-app, source revision equal to the branch, and exactly the
ordered override list CLIENT, PORTFOLIO, APP, BRANCH, BUILD,
BUILD_NUMBER, BUCKET_NAME; the BUILD entry carries the short commit
hash and the BUILD_NUMBER entry carries the allocated counter value,
so the two entries carry distinct values whenever the hash and the
counter differ as strings; the build-start response is returned
unmodified. -/
theorem c3_dispatch_overrides :
    ∀ (α : Type) (svc : BuildService α) (bucket region : String)
      (now : Nat) (dd : DeploymentDetails) (w : World) (bn : String)
      (s2 : SSMStore),
      get_new_build_number dd now w.ssm = Except.ok (bn, s2) →
      ((invoke_codebuild_project svc bucket region now dd w).2.builds =
        w.builds ++ [specBuildCall dd bn bucket])
      ∧ (∀ r, svc (specBuildCall dd bn bucket) = Except.ok r →
          (invoke_codebuild_project svc bucket region now dd w).1 =
            Except.ok r)
      ∧ envValue (specEnvOverrides dd bn bucket) "BUILD" = some dd.build
      ∧ envValue (specEnvOverrides dd bn bucket) "BUILD_NUMBER" = some bn
      ∧ (dd.build ≠ bn →
          envValue (specEnvOverrides dd bn bucket) "BUILD" ≠
          envValue (specEnvOverrides dd bn bucket) "BUILD_NUMBER") := by
  intro α svc bucket region now dd w bn s2 h
  have he := get_new_build_number_eq dd now w.ssm
  rw [h] at he
  simp only [Except.ok.injEq, Prod.mk.injEq] at he
  obtain ⟨hbn, -⟩ := he
  subst hbn
  refine ⟨?_, ?_, rfl, rfl, ?_⟩
  · rw [invoke_eq]
    cases hsvc : svc (specBuildCall dd
      (toString (versionAt w.ssm (param_name dd) + 1)) bucket) <;> rfl
  · intro r hr
    rw [invoke_eq, hr]
  · intro hne heq
    have h1 : envValue (specEnvOverrides dd
        (toString (versionAt w.ssm (param_name dd) + 1)) bucket) "BUILD" =
        some dd.build := rfl
    have h2 : envValue (specEnvOverrides dd
        (toString (versionAt w.ssm (param_name dd) + 1)) bucket)
        "BUILD_NUMBER" =
        some (toString (versionAt w.ssm (param_name dd) + 1)) := rfl
    rw [h1, h2] at heq
    exact hne (Option.some.inj heq)

/-- Witness for C3: with a build service returning 7, the dispatcher
logs exactly the expected call and returns 7 unmodified. -/
theorem c3_dispatch_overrides_witness :
    (invoke_codebuild_project (fun _ => Except.ok (7 : Nat)) "bkt" "r" 5
      (goodDetails "test") { ssm := [], builds := [] }).2.builds =
      [] ++ [specBuildCall (goodDetails "test") "1" "bkt"] ∧
    (invoke_codebuild_project (fun _ => Except.ok (7 : Nat)) "bkt" "r" 5
      (goodDetails "test") { ssm := [], builds := [] }).1 =
      Except.ok 7 := by
  have h := c3_dispatch_overrides Nat (fun _ => Except.ok 7) "bkt" "r" 5
    (goodDetails "test") { ssm := [], builds := [] } "1"
    [("/portfolio/my-repo/main/build_time", "5", 1)] rfl
  exact ⟨h.1, h.2.1 7 rfl⟩

/-- C10: dispatching a record writes the counter first and only then
starts the build: the dispatched call carries the freshly incremented
version as BUILD_NUMBER, the store leaving the dispatcher always holds
the incremented version, and when the build-start fails the error is
propagated while the counter write stays in place, not rolled back. -/
theorem c10_counter_not_rolled_back :
    ∀ (α : Type) (svc : BuildService α) (bucket region : String)
      (now : Nat) (dd : DeploymentDetails) (w : World),
      ((invoke_codebuild_project svc bucket region now dd w).2.ssm =
        (param_name dd, toString now,
          versionAt w.ssm (param_name dd) + 1) :: w.ssm)
      ∧ (versionAt (invoke_codebuild_project svc bucket region now dd
            w).2.ssm (param_name dd) =
          versionAt w.ssm (param_name dd) + 1)
      ∧ (∀ msg, svc (specBuildCall dd
            (toString (versionAt w.ssm (param_name dd) + 1)) bucket) =
            Except.error msg →
          (invoke_codebuild_project svc bucket region now dd w).1 =
            Except.error (PyError.clientError msg)
          ∧ (invoke_codebuild_project svc bucket region now dd
              w).2.builds =
            w.builds ++ [specBuildCall dd
              (toString (versionAt w.ssm (param_name dd) + 1)) bucket]) := by
  intro α svc bucket region now dd w
  refine ⟨?_, ?_, ?_⟩
  · rw [invoke_eq]
    cases hsvc : svc (specBuildCall dd
      (toString (versionAt w.ssm (param_name dd) + 1)) bucket) <;> rfl
  · rw [invoke_eq]
    cases hsvc : svc (specBuildCall dd
      (toString (versionAt w.ssm (param_name dd) + 1)) bucket) <;>
      exact versionAt_cons_self _ _ _ _
  · intro msg hm
    rw [invoke_eq, hm]
    exact ⟨rfl, rfl⟩

/-- Witness for C10: a failing build service still leaves the counter
at version 1 after the first dispatch on an empty store. -/
theorem c10_counter_not_rolled_back_witness :
    (invoke_codebuild_project (fun _ => Except.error "ProjectNotFound")
      "bkt" "r" 5 (goodDetails "test")
      { ssm := [], builds := [] } :
      Except PyError Nat × World).1 =
      Except.error (PyError.clientError "ProjectNotFound") ∧
    (invoke_codebuild_project (fun _ => Except.error "ProjectNotFound")
      "bkt" "r" 5 (goodDetails "test")
      { ssm := [], builds := [] } :
      Except PyError Nat × World).2.ssm =
      [("/portfolio/my-repo/main/build_time", "5", 1)] := by
  have h := c10_counter_not_rolled_back Nat
    (fun _ => Except.error "ProjectNotFound") "bkt" "r" 5
    (goodDetails "test") { ssm := [], builds := [] }
  exact ⟨(h.2.2 "ProjectNotFound" rfl).1, h.1⟩

theorem gdd_good (client : String) :
    get_deployment_details client goodRecord =
    Except.ok (goodDetails client) := rfl

theorem gdd_bad (client : String) :
    get_deployment_details client badRecord =
    Except.error (PyError.keyError "commit") := rfl

theorem runRecords_append_error (α : Type) (svc : BuildService α)
    (client bucket region : String) (now : Nat) (l1 l2 : List JVal)
    (w w1 : World) (e : PyError)
    (h : runRecords svc client bucket region now l1 w =
      (Except.error e, w1)) :
    runRecords svc client bucket region now (l1 ++ l2) w =
    (Except.error e, w1) := by
  induction l1 generalizing w with
  | nil =>
    simp only [runRecords] at h
    exact absurd h (by simp)
  | cons x xs ih =>
    simp only [List.cons_append, List.append_eq, runRecords] at h ⊢
    cases hobj : asObj x with
    | error e2 =>
      simp only [hobj] at h ⊢
      exact h
    | ok robj =>
      simp only [hobj] at h ⊢
      cases hdd : get_deployment_details client robj with
      | error e2 =>
        simp only [hdd] at h ⊢
        exact h
      | ok dd =>
        simp only [hdd] at h ⊢
        cases hinv : invoke_codebuild_project svc bucket region now dd w with
        | mk res w2 =>
          cases res with
          | error e2 =>
            simp only [hinv] at h ⊢
            exact h
          | ok resp =>
            simp only [hinv] at h ⊢
            cases h3 : runRecords svc client bucket region now xs w2 with
            | mk res3 w3 =>
              cases res3 with
              | error e2 =>
                simp only [h3, Prod.mk.injEq, Except.error.injEq] at h
                obtain ⟨he, hw⟩ := h
                subst he hw
                rw [ih w2 h3]
              | ok rs =>
                simp only [h3] at h
                simp at h

theorem runRecords_cons_err {α : Type} {svc : BuildService α}
    {client bucket region : String} {now : Nat} {x : JVal}
    {robj : List (String × JVal)} {dd : DeploymentDetails} {resp : α}
    {w w2 w3 : World} {e : PyError}
    (xs : List JVal)
    (hx : asObj x = Except.ok robj)
    (hdd : get_deployment_details client robj = Except.ok dd)
    (hinv : invoke_codebuild_project svc bucket region now dd w =
      (Except.ok resp, w2))
    (hrec : runRecords svc client bucket region now xs w2 =
      (Except.error e, w3)) :
    runRecords svc client bucket region now (x :: xs) w =
    (Except.error e, w3) := by
  simp only [runRecords, hx, hdd, hinv, hrec]

theorem runRecords_bad (α : Type) (svc : BuildService α)
    (client bucket region : String) (now : Nat) (w : World) :
    runRecords svc client bucket region now [JVal.obj badRecord] w =
    (Except.error (PyError.keyError "commit"), w) := by
  simp only [runRecords, show asObj (JVal.obj badRecord) =
    Except.ok badRecord from rfl, gdd_bad]

/-- C6: record processing fails fast. An error while processing one
record makes the whole batch return exactly that error and the state
reached at that record, regardless of how many records follow; a
successful batch returns one response per record; and on the concrete
two-record event whose second record lacks the commit field, the
handler returns the KeyError for commit, a malformed-record failure,
and no response list at all. -/
theorem c6_fail_fast :
    ∀ (α : Type) (svc : BuildService α) (client bucket region : String)
      (now : Nat),
      (∀ (rs1 : List JVal) (r : JVal) (rs2 : List JVal) (w w1 : World)
        (e : PyError),
        runRecords svc client bucket region now (rs1 ++ [r]) w =
          (Except.error e, w1) →
        runRecords svc client bucket region now (rs1 ++ r :: rs2) w =
          (Except.error e, w1))
      ∧ (∀ (records : List JVal) (w w2 : World) (resps : List α),
          runRecords svc client bucket region now records w =
            (Except.ok resps, w2) →
          resps.length = records.length)
      ∧ (∀ (resp : α), (∀ call, svc call = Except.ok resp) →
          (handler svc client bucket region now twoRecordEvent
            { ssm := [], builds := [] }).1 =
            Except.error (PyError.keyError "commit")
          ∧ (PyError.keyError "commit").isMalformedRecordError = true) := by
  intro α svc client bucket region now
  refine ⟨?_, ?_, ?_⟩
  · intro rs1 r rs2 w w1 e h
    have hsplit : rs1 ++ r :: rs2 = (rs1 ++ [r]) ++ rs2 := by
      simp [List.append_assoc]
    rw [hsplit]
    exact runRecords_append_error α svc client bucket region now
      (rs1 ++ [r]) rs2 w w1 e h
  · intro records
    induction records with
    | nil =>
      intro w w2 resps h
      simp only [runRecords, Prod.mk.injEq, Except.ok.injEq] at h
      rw [← h.1]
      rfl
    | cons x xs ih =>
      intro w w2 resps h
      simp only [runRecords] at h
      split at h
      · simp at h
      · split at h
        · simp at h
        · split at h
          · simp at h
          · split at h
            · simp at h
            · next resps2 w3 heq =>
              simp only [Prod.mk.injEq, Except.ok.injEq] at h
              rw [← h.1]
              simp only [List.length_cons]
              rw [ih _ _ _ heq]
  · intro resp hsvc
    refine ⟨?_, rfl⟩
    have hinv1 : invoke_codebuild_project svc bucket region now
        (goodDetails client) { ssm := [], builds := [] } =
        (Except.ok resp,
         { ssm := [(param_name (goodDetails client), toString now, 1)]
           builds := [specBuildCall (goodDetails client) "1" bucket] }) := by
      rw [invoke_eq, hsvc]
      rw [show versionAt ({ ssm := [], builds := [] } : World).ssm
        (param_name (goodDetails client)) = 0 from rfl]
      rfl
    have h3 := runRecords_cons_err [JVal.obj badRecord]
      (show asObj (JVal.obj goodRecord) = Except.ok goodRecord from rfl)
      (gdd_good client) hinv1
      (runRecords_bad α svc client bucket region now _)
    show (match runRecords svc client bucket region now
        [JVal.obj goodRecord, JVal.obj badRecord]
        { ssm := [], builds := [] } with
      | (Except.error e, w2) =>
        ((Except.error e : Except PyError (HandlerResult α)), w2)
      | (Except.ok resps, w2) =>
        (Except.ok { Responses := resps }, w2)).1 =
      Except.error (PyError.keyError "commit")
    rw [h3]

/-- Witness for C6: the two-record event with a malformed second
record makes the handler fail with the KeyError for commit even
though the build service always succeeds. -/
theorem c6_fail_fast_witness :
    (handler (fun _ => Except.ok (0 : Nat)) "test" "bkt" "r" 5
      twoRecordEvent { ssm := [], builds := [] }).1 =
    Except.error (PyError.keyError "commit") :=
  ((c6_fail_fast Nat (fun _ => Except.ok 0) "test" "bkt" "r" 5).2.2 0
    (fun _ => rfl)).1

/-- C7: a payload without the Records key makes the handler fail with
the ValueError the code raises for a missing Records key, and the
world is returned unchanged: no parameter-store write and no
build-start happened. -/
theorem c7_missing_records :
    ∀ (α : Type) (svc : BuildService α) (client bucket region : String)
      (now : Nat) (event : List (String × JVal)) (w : World),
      dictGet event "Records" = Except.error (PyError.keyError "Records") →
      handler svc client bucket region now event w =
        (Except.error (PyError.valueError "No Records key in event"), w) := by
  intro α svc client bucket region now event w h
  simp only [handler, h]

/-- Witness for C7 on a payload with a different top-level key. -/
theorem c7_missing_records_witness :
    handler (fun _ => Except.ok (0 : Nat)) "test" "bkt" "r" 5
      [("NotRecords", JVal.list [])] { ssm := [], builds := [] } =
    (Except.error (PyError.valueError "No Records key in event"),
     { ssm := [], builds := [] }) :=
  c7_missing_records Nat (fun _ => Except.ok 0) "test" "bkt" "r" 5
    [("NotRecords", JVal.list [])] { ssm := [], builds := [] } rfl

/-- C8: a payload whose Records list is empty yields the empty
response list, and the world is returned unchanged: no counter-store
write and no build-start happened. -/
theorem c8_empty_records :
    ∀ (α : Type) (svc : BuildService α) (client bucket region : String)
      (now : Nat) (event : List (String × JVal)) (w : World),
      dictGet event "Records" = Except.ok (JVal.list []) →
      handler svc client bucket region now event w =
        (Except.ok { Responses := [] }, w) := by
  intro α svc client bucket region now event w h
  simp only [handler, h, runRecords]

/-- Witness for C8 on the event with an empty Records list. -/
theorem c8_empty_records_witness :
    handler (fun _ => Except.ok (0 : Nat)) "test" "bkt" "r" 5
      [("Records", JVal.list [])] { ssm := [], builds := [] } =
    (Except.ok { Responses := [] }, { ssm := [], builds := [] }) :=
  c8_empty_records Nat (fun _ => Except.ok 0) "test" "bkt" "r" 5
    [("Records", JVal.list [])] { ssm := [], builds := [] } rfl

end CoreCodecommit
